import Mathlib

/-!
Shallow embedding of the masterclass-go dual-listener service host.

Embedded source:
- internal/grpc_server.go: GrpcServer, NewGrpcServer, Start, GetFrame.
- The tutorial text (HTTP server, wait-group host, minimal main): HTTPServer,
  NewHTTPServer, HealthHandler, startGrpcServer, startHTTPServer, both mains.

The gRPC and net libraries are external collaborators: their observable
behavior (outcome of net.Listen, outcome of Serve) is passed in as an
environment, and the one call into them from Start
(pb.RegisterFrameServiceServer) is recorded in the returned trace.
Mutation through pointer receivers is embedded as explicit state passing:
each method returns the receiver it ends with, so an unchanged receiver in
the model corresponds to the Go code never assigning to a field.
-/

namespace MasterclassGo

/-- A Go error value; only the message is observable here. -/
structure GoError where
  msg : String
  deriving DecidableEq, Repr

/-- A bound TCP listener as returned by net.Listen. -/
structure NetListener where
  addr : String
  deriving DecidableEq, Repr

/-- Environment supplied by the net and grpc libraries: the outcome of
net.Listen on an address, and the error Serve returns for a listener
(none means Serve returned a nil error). -/
structure NetEnv where
  listen : String → Except GoError NetListener
  serve : NetListener → Option GoError

/-- pb.GetFrameRequest: a single integer field Id. The wire type is int32;
the handler only echoes the value, so it is modelled as Int. -/
structure GetFrameRequest where
  id : Int
  deriving DecidableEq, Repr

/-- pb.Frame: a single integer field Id. -/
structure Frame where
  id : Int
  deriving DecidableEq, Repr

/-- context.Context as handed to the handler; its content is irrelevant to
the code under src, so it is modelled as an arbitrary key-value list. -/
structure GoContext where
  values : List (String × String)
  deriving DecidableEq, Repr

/-- internal.GrpcServer. The Go struct also holds a pointer to a grpc.Server
and embeds pb.UnimplementedFrameServiceServer; both are external collaborator
state that no code under src reads, so only the address field is carried. -/
structure GrpcServer where
  address : String
  deriving DecidableEq, Repr

/-- internal.NewGrpcServer: builds the server value for the given address. -/
def NewGrpcServer (address : String) : GrpcServer :=
  { address := address }

/-- Observable trace of one call to GrpcServer.Start: whether the handler was
registered, which listener was bound (none if the bind failed), and the
returned error (none means Start returned nil). -/
structure StartTrace where
  registeredHandler : Bool
  bound : Option NetListener
  result : Option GoError
  deriving Repr

/-- internal.GrpcServer.Start: register the handler, net.Listen on the
configured address, return the bind error on failure, otherwise Serve on the
bound listener and return what Serve returns. The receiver is returned
unchanged because the Go method assigns to no field. -/
def GrpcServer.start (s : GrpcServer) (env : NetEnv) : GrpcServer × StartTrace :=
  match env.listen s.address with
  | .error e => (s, { registeredHandler := true, bound := none, result := some e })
  | .ok lis => (s, { registeredHandler := true, bound := some lis, result := env.serve lis })

/-- internal.GrpcServer.GetFrame: returns a Frame carrying the request id and
a nil error; the receiver and the context are not read by the body. -/
def GrpcServer.getFrame (s : GrpcServer) (ctx : GoContext) (req : GetFrameRequest) :
    GrpcServer × Frame × Option GoError :=
  (s, { id := req.id }, none)

/-- Repeated invocation of GetFrame threading the returned receiver state
through, collecting the (response, error) pair of each call. -/
def callRepeat (s : GrpcServer) (ctx : GoContext) (req : GetFrameRequest) :
    Nat → List (Frame × Option GoError)
  | 0 => []
  | n + 1 =>
    let r := s.getFrame ctx req
    r.2 :: callRepeat r.1 ctx req n

/-- http.StatusOK. -/
def StatusOK : Nat := 200

/-- State of a net/http ResponseWriter: the status code (Go sends 200 when
the handler never calls WriteHeader) and the accumulated body chunks. -/
structure ResponseWriter where
  statusCode : Nat
  body : List String
  deriving DecidableEq, Repr

/-- ResponseWriter.WriteHeader: sets the status code. -/
def ResponseWriter.writeHeader (w : ResponseWriter) (code : Nat) : ResponseWriter :=
  { w with statusCode := code }

/-- An inbound HTTP request: method and path. -/
structure HTTPRequest where
  method : String
  path : String
  deriving DecidableEq, Repr

/-- internal.HealthHandler: writes http.StatusOK and nothing else. -/
def HealthHandler (w : ResponseWriter) (r : HTTPRequest) : ResponseWriter :=
  w.writeHeader StatusOK

/-- The registration table of http.DefaultServeMux: patterns with their
handlers, in registration order. -/
abbrev Mux := List (String × (ResponseWriter → HTTPRequest → ResponseWriter))

/-- http.HandleFunc: registers a handler for a pattern on the mux. -/
def handleFunc (mux : Mux) (pat : String) (h : ResponseWriter → HTTPRequest → ResponseWriter) :
    Mux :=
  mux ++ [(pat, h)]

/-- http.DefaultServeMux before any registration. -/
def defaultServeMux : Mux := []

/-- internal.HTTPServer: only an address field. -/
structure HTTPServer where
  address : String
  deriving DecidableEq, Repr

/-- internal.NewHTTPServer: registers HealthHandler on the mux and returns
the server value for the given address. -/
def NewHTTPServer (mux : Mux) (address : String) : Mux × HTTPServer :=
  (handleFunc mux "/health" HealthHandler, { address := address })

/-- Dispatch of one request by the mux while the server is serving: the
matching handler runs on a fresh writer (default status 200, empty body);
none when no registered pattern matches the path (the library default for
unregistered paths is out of scope). -/
def serveMux (mux : Mux) (req : HTTPRequest) : Option ResponseWriter :=
  match List.find? (fun p => p.1 == req.path) mux with
  | some p => some (p.2 { statusCode := StatusOK, body := [] } req)
  | none => none

/-- Observable outcome of one listener task running Start(): still blocked
inside the serve loop, or returned with the given error value (none models a
nil error). -/
inductive StartOutcome
  | blocked
  | returned (e : Option GoError)
  deriving DecidableEq, Repr

/-- Whether a task with this Start() outcome reaches the wg.Done() call: the
tutorial tasks call wg.Done() only under err != nil. -/
def taskCallsDone : StartOutcome → Bool
  | .returned (some _) => true
  | _ => false

/-- sync.WaitGroup: a counter. -/
structure WaitGroup where
  counter : Nat
  deriving DecidableEq, Repr

/-- WaitGroup.Add. -/
def WaitGroup.add (wg : WaitGroup) (n : Nat) : WaitGroup :=
  { counter := wg.counter + n }

/-- WaitGroup.Done. -/
def WaitGroup.done (wg : WaitGroup) : WaitGroup :=
  { counter := wg.counter - 1 }

/-- One wait-group task of the tutorial (startGrpcServer / startHTTPServer):
prints its start message, runs Start(), and only when Start() returned a
non-nil error prints the error and calls wg.Done(). Yields the wait-group
after the signals the task has issued and the lines it has printed. -/
def runTask (startMsg : String) (outcome : StartOutcome) (wg : WaitGroup) :
    WaitGroup × List String :=
  match outcome with
  | .returned (some e) => (wg.done, [startMsg, e.msg])
  | _ => (wg, [startMsg])

/-- The wait-group main of the tutorial: wg.Add(2), launch both tasks,
wg.Wait(), then os.Exit(1). Given the eventual Start() outcome of each task,
yields the exit code the process reaches through this path (none when
wg.Wait() never returns) together with the printed lines. Done() only
decrements, so the interleaving of the two tasks does not matter and they
are composed sequentially. -/
def hostRun (g h : StartOutcome) : Option Nat × List String :=
  let wg0 := WaitGroup.add { counter := 0 } 2
  let r1 := runTask "Starting server..." g wg0
  let r2 := runTask "Starting HTTP server..." h r1.1
  (if r2.1.counter = 0 then some 1 else none, r1.2 ++ r2.2)

/-- The minimal main (cmd/main.go): print the start message, start the gRPC
server on :8080, and on a non-nil error print it and os.Exit(1); on a nil
error main returns normally (no explicit exit, modelled as none). Yields the
printed lines and the explicit exit code. -/
def mainMinimal (env : NetEnv) : List String × Option Nat :=
  let s := NewGrpcServer ":8080"
  let tr := (s.start env).2
  match tr.result with
  | some e => (["Starting server...", "Error starting server: " ++ e.msg], some 1)
  | none => (["Starting server..."], none)

/-- A concrete environment in which the bind fails. -/
def envBindFail : NetEnv :=
  { listen := fun _ => .error { msg := "listen tcp :8080: bind: address already in use" },
    serve := fun _ => none }

/-- A concrete environment in which the bind succeeds and the serve loop
fails. -/
def envServeFail : NetEnv :=
  { listen := fun a => .ok { addr := a },
    serve := fun _ => some { msg := "grpc: the server has been stopped" } }

/-- C1: for every GetFrameRequest with integer id x, including zero and
negative values and with no precondition on the id, GetFrame returns a
FrameResponse whose id equals x together with a nil error. -/
theorem C1_getFrame_echo (s : GrpcServer) (ctx : GoContext) (x : Int) :
    (s.getFrame ctx { id := x }).2 = ({ id := x }, none) :=
  rfl

/-- C3: if net.Listen on the configured address fails in Start, then Start
returns that error and no listener is ever bound for serving. -/
theorem C3_bind_error_no_serve (s : GrpcServer) (env : NetEnv) (e : GoError)
    (hb : env.listen s.address = .error e) :
    (s.start env).2.result = some e ∧ (s.start env).2.bound = none := by
  simp [GrpcServer.start, hb]

/-- C3 witness: binding :8080 in envBindFail fails and Start surfaces it
without serving. -/
theorem C3_bind_error_no_serve_witness :
    ((NewGrpcServer ":8080").start envBindFail).2.result =
        some { msg := "listen tcp :8080: bind: address already in use" } ∧
      ((NewGrpcServer ":8080").start envBindFail).2.bound = none :=
  C3_bind_error_no_serve (NewGrpcServer ":8080") envBindFail
    { msg := "listen tcp :8080: bind: address already in use" } rfl

/-- C4: on a successful bind Start enters the serve loop on the bound
listener and returns exactly what Serve returns; consequently Start returns
a non-nil error exactly when the bind fails or the serve loop fails. -/
theorem C4_start_error_iff (s : GrpcServer) (env : NetEnv) :
    (∀ lis, env.listen s.address = .ok lis →
        (s.start env).2.bound = some lis ∧ (s.start env).2.result = env.serve lis) ∧
      ((s.start env).2.result ≠ none ↔
        (∃ e, env.listen s.address = .error e) ∨
          ∃ lis, env.listen s.address = .ok lis ∧ env.serve lis ≠ none) := by
  constructor
  · intro lis hl
    simp [GrpcServer.start, hl]
  · cases hc : env.listen s.address with
    | error e => simp [GrpcServer.start, hc]
    | ok lis => simp [GrpcServer.start, hc]

/-- C4 witness: in envServeFail the bind on :8080 succeeds, Start serves on
the bound listener and returns the serve error. -/
theorem C4_start_error_iff_witness :
    ((NewGrpcServer ":8080").start envServeFail).2.bound = some { addr := ":8080" } ∧
      ((NewGrpcServer ":8080").start envServeFail).2.result =
        envServeFail.serve { addr := ":8080" } :=
  (C4_start_error_iff (NewGrpcServer ":8080") envServeFail).1 { addr := ":8080" } rfl

/-- C5: in the minimal entry point, whenever Start on the :8080 gRPC server
returns an error, main prints the error and exits the process with status
code 1. -/
theorem C5_main_exits_one_on_error (env : NetEnv) (e : GoError)
    (h : ((NewGrpcServer ":8080").start env).2.result = some e) :
    mainMinimal env =
      (["Starting server...", "Error starting server: " ++ e.msg], some 1) := by
  simp [mainMinimal, h]

/-- C5 witness: with the failing bind environment, main prints the bind error
and exits with status 1. -/
theorem C5_main_exits_one_on_error_witness :
    mainMinimal envBindFail =
      (["Starting server...",
          "Error starting server: " ++ "listen tcp :8080: bind: address already in use"],
        some 1) :=
  C5_main_exits_one_on_error envBindFail
    { msg := "listen tcp :8080: bind: address already in use" } rfl

/-- C6: while the health server built by NewHTTPServer is serving, any GET
request to /health is answered with status 200 and an empty body. -/
theorem C6_health_route_ok (addr : String) (req : HTTPRequest)
    (hm : req.method = "GET") (hp : req.path = "/health") :
    serveMux (NewHTTPServer defaultServeMux addr).1 req =
      some { statusCode := 200, body := [] } := by
  simp [serveMux, NewHTTPServer, handleFunc, defaultServeMux, hp, HealthHandler,
    ResponseWriter.writeHeader, StatusOK]

/-- C6 witness: a concrete GET /health request is answered 200 with empty
body. -/
theorem C6_health_route_ok_witness :
    serveMux (NewHTTPServer defaultServeMux ":8081").1 { method := "GET", path := "/health" } =
      some { statusCode := 200, body := [] } :=
  C6_health_route_ok ":8081" { method := "GET", path := "/health" } rfl rfl

/-- Every entry produced by repeating GetFrame is the echoed frame with a nil
error. -/
theorem callRepeat_eq_replicate (ctx : GoContext) (req : GetFrameRequest) :
    ∀ (n : Nat) (s : GrpcServer),
      callRepeat s ctx req n = List.replicate n ({ id := req.id }, none)
  | 0, _ => rfl
  | n + 1, s => by
    simp [callRepeat, GrpcServer.getFrame, callRepeat_eq_replicate ctx req n,
      List.replicate]

/-- C7: repeating GetFrame with the same request any number of times,
threading the server state from call to call, yields identical results for
every pair of invocations. -/
theorem C7_getFrame_idempotent (s : GrpcServer) (ctx : GoContext)
    (req : GetFrameRequest) (n : Nat) (r1 r2 : Frame × Option GoError)
    (h1 : r1 ∈ callRepeat s ctx req n) (h2 : r2 ∈ callRepeat s ctx req n) :
    r1 = r2 := by
  rw [callRepeat_eq_replicate ctx req n s] at h1 h2
  rw [List.eq_of_mem_replicate h1, List.eq_of_mem_replicate h2]

/-- C7 witness: two of the results of three repeated calls with id 5 are
equal. -/
theorem C7_getFrame_idempotent_witness :
    (({ id := 5 }, none) : Frame × Option GoError) = ({ id := 5 }, none) :=
  C7_getFrame_idempotent (NewGrpcServer ":8080") { values := [] } { id := 5 } 3
    ({ id := 5 }, none) ({ id := 5 }, none) (by decide) (by decide)

/-- C8: the configuration is immutable after construction: Start returns the
receiver with every field unchanged (in particular the address), and GetFrame
also leaves the receiver unchanged. -/
theorem C8_config_immutable (s : GrpcServer) (env : NetEnv) (ctx : GoContext)
    (req : GetFrameRequest) :
    (s.start env).1 = s ∧ (s.start env).1.address = s.address ∧
      (s.getFrame ctx req).1 = s := by
  refine ⟨?_, ?_, rfl⟩ <;> cases hc : env.listen s.address <;> simp [GrpcServer.start, hc]

/-- C9: the wait-group is initialized to 2 and a task signals it only when
its Start returned an error, so wg.Wait returns, and the host path exits the
process, exactly when both listeners have failed; if exactly one fails the
host waits forever. -/
theorem C9_wait_needs_both_failures (g h : StartOutcome) :
    (WaitGroup.add { counter := 0 } 2).counter = 2 ∧
      ((hostRun g h).1 ≠ none ↔ taskCallsDone g = true ∧ taskCallsDone h = true) ∧
      (taskCallsDone g ≠ taskCallsDone h → (hostRun g h).1 = none) := by
  refine ⟨rfl, ?_, ?_⟩ <;>
    rcases g with _ | (_ | eg) <;> rcases h with _ | (_ | eh) <;>
      simp [hostRun, runTask, taskCallsDone, WaitGroup.add, WaitGroup.done]

/-- C9 witness: with only the gRPC task failed and the HTTP task still
serving, the host never exits. -/
theorem C9_wait_needs_both_failures_witness :
    (hostRun (StartOutcome.returned (some { msg := "grpc transport closed" }))
        StartOutcome.blocked).1 = none :=
  (C9_wait_needs_both_failures
      (StartOutcome.returned (some { msg := "grpc transport closed" }))
      StartOutcome.blocked).2.2 (by decide)

/-- C2 counterexample: the gRPC listener task has returned an error (and so
calls wg.Done) while the HTTP task is still serving, yet the host does not
terminate the process: hostRun yields no exit code. -/
theorem C2_counterexample_single_failure_no_exit :
    taskCallsDone
        (StartOutcome.returned
          (some { msg := "listen tcp :8080: bind: address already in use" })) = true ∧
      (hostRun
          (StartOutcome.returned
            (some { msg := "listen tcp :8080: bind: address already in use" }))
          StartOutcome.blocked).1 = none := by
  constructor
  · rfl
  · rfl

/-- C2 amended: a failing task prints its error and signals the wait-group,
but the host terminates the process (with exit code 1) only once both
listener tasks have had Start return an error; a single failure leaves the
process waiting. -/
theorem C2_exit_only_after_both_failures (g h : StartOutcome) :
    ((hostRun g h).1 = some 1 ↔ taskCallsDone g = true ∧ taskCallsDone h = true) ∧
      (∀ e, g = StartOutcome.returned (some e) → e.msg ∈ (hostRun g h).2) ∧
      (∀ e, h = StartOutcome.returned (some e) → e.msg ∈ (hostRun g h).2) := by
  refine ⟨?_, ?_, ?_⟩ <;>
    rcases g with _ | (_ | eg) <;> rcases h with _ | (_ | eh) <;>
      simp [hostRun, runTask, taskCallsDone, WaitGroup.add, WaitGroup.done]

/-- C2 amended witness: when both tasks have failed the host exits with code
1, and the first failure had printed its error. -/
theorem C2_exit_only_after_both_failures_witness :
    (hostRun (StartOutcome.returned (some { msg := "grpc boom" }))
          (StartOutcome.returned (some { msg := "http boom" }))).1 = some 1 ∧
      "grpc boom" ∈
        (hostRun (StartOutcome.returned (some { msg := "grpc boom" }))
            (StartOutcome.returned (some { msg := "http boom" }))).2 :=
  ⟨((C2_exit_only_after_both_failures
        (StartOutcome.returned (some { msg := "grpc boom" }))
        (StartOutcome.returned (some { msg := "http boom" }))).1).mpr (by decide),
    (C2_exit_only_after_both_failures
        (StartOutcome.returned (some { msg := "grpc boom" }))
        (StartOutcome.returned (some { msg := "http boom" }))).2.1
      { msg := "grpc boom" } rfl⟩

/-- C10: the result of GetFrame does not depend on the context or on the
receiver: for any two servers and any two contexts, requests with equal ids
yield the same response-error pair, and the error is nil. -/
theorem C10_getFrame_ctx_independent (s1 s2 : GrpcServer) (c1 c2 : GoContext)
    (req1 req2 : GetFrameRequest) (hid : req1.id = req2.id) :
    (s1.getFrame c1 req1).2 = (s2.getFrame c2 req2).2 ∧
      (s1.getFrame c1 req1).2.2 = none := by
  simp [GrpcServer.getFrame, hid]

/-- C10 witness: two calls with distinct contexts and servers but the same
id 7 agree and succeed. -/
theorem C10_getFrame_ctx_independent_witness :
    ((NewGrpcServer ":8080").getFrame { values := [] } { id := 7 }).2 =
        ((NewGrpcServer ":9090").getFrame { values := [("k", "v")] } { id := 7 }).2 ∧
      ((NewGrpcServer ":8080").getFrame { values := [] } { id := 7 }).2.2 = none :=
  C10_getFrame_ctx_independent (NewGrpcServer ":8080") (NewGrpcServer ":9090")
    { values := [] } { values := [("k", "v")] } { id := 7 } { id := 7 } rfl

end MasterclassGo
